import Mathlib

/-!
Shallow embedding of `src/run.py` (MQTT smart-home device simulation).

The program simulates MQTT sensors and actuators.  Pure computation in the
source (payload construction, the per-actuator transforms, correlation-token
selection, random-value rounding, topic construction) is embedded as Lean
functions.  External effects are modelled explicitly:

* JSON values decoded by `json.loads` are modelled by the inductive type `J`;
  Python `dict`s with string keys become insertion-ordered association lists
  (`Obj`) with Python-dict lookup/assignment semantics.
* `json.dumps`/`json.loads` serialization is abstracted: an inbound payload is
  either `some` structured record or `none` (malformed, `json.loads` raises
  `JSONDecodeError`); an outbound payload is carried as the structured record.
* Python exceptions escaping an expression are modelled with `Except PyErr`.
* `random.uniform(a, b)` is `a + (b - a) * r` (CPython's implementation) for
  a sample `r ∈ [0,1]` passed as an explicit rational parameter; floats are
  modelled by `ℚ`, and Python's `round(x, 2)` (round-half-to-even) by
  `pyRound2`.
* `uuid.uuid1()` is a 128-bit value; `bytes(str(uuid.uuid1()), "utf-8")` is
  `uuidBytes` applied to that value (the hyphenated lowercase-hex ASCII
  encoding).  The 128-bit value is an explicit parameter.
* `paho` client calls are modelled by the data they carry: `client.publish`
  becomes the record `PublishCall`; the subscription set of a client becomes a
  list of topic strings with `subscribe`/`unsubscribe` acting on it.
-/

/-- A JSON value, as produced by Python's `json.loads`. -/
inductive J where
  | null : J
  | bool (b : Bool) : J
  | num (q : ℚ) : J
  | str (s : String) : J
  | arr (elts : List J) : J
  | obj (fields : List (String × J)) : J
deriving Repr

/-- A Python `dict` with string keys as decoded from a JSON object:
an insertion-ordered association list. -/
abbrev Obj := List (String × J)

/-- Python dict lookup `o.get(k)`: the value at key `k`, if present. -/
def getKey? (o : Obj) (k : String) : Option J :=
  match o with
  | [] => none
  | (k', v) :: rest => if k' = k then some v else getKey? rest k

/-- Python dict assignment `o[k] = v`: replaces the value in place when the
key is present (keeping insertion order), appends otherwise. -/
def setKey (o : Obj) (k : String) (v : J) : Obj :=
  match o with
  | [] => [(k, v)]
  | (k', v') :: rest => if k' = k then (k', v) :: rest else (k', v') :: setKey rest k v

/-- The keys of a dict, in insertion order. -/
def keys (o : Obj) : List String := o.map Prod.fst

/-- A Python exception escaping the code under consideration. -/
inductive PyErr where
  | jsonDecodeError : PyErr
  | keyError (key : String) : PyErr
deriving Repr, DecidableEq

/-- Python dict subscription `o[k]`: raises `KeyError` when absent. -/
def getItem (o : Obj) (k : String) : Except PyErr J :=
  match getKey? o k with
  | some v => Except.ok v
  | none => Except.error (PyErr.keyError k)

/-- Python truthiness (`bool(x)`) of a JSON-decoded value: `None`, `False`,
zero, the empty string, the empty list and the empty dict are falsy. -/
def truthy : J → Bool
  | J.null => false
  | J.bool b => b
  | J.num q => q != 0
  | J.str s => s != ""
  | J.arr elts => !elts.isEmpty
  | J.obj fields => !fields.isEmpty

/-- `random.uniform(a, b)`: CPython computes `a + (b - a) * random()` where
`random()` draws `r ∈ [0, 1]`; the sample `r` is an explicit parameter. -/
def uniform (a b : ℚ) (r : ℚ) : ℚ := a + (b - a) * r

/-- Round-half-to-even to the nearest integer, as Python's builtin `round`
does (banker's rounding). -/
def roundHalfEven (q : ℚ) : ℤ :=
  if Int.fract q = 1/2 then (if 2 ∣ ⌊q⌋ then ⌊q⌋ else ⌊q⌋ + 1) else round q

/-- Python's `round(x, 2)`: round-half-to-even at two decimal digits. -/
def pyRound2 (q : ℚ) : ℚ := (roundHalfEven (100 * q) : ℚ) / 100

/-- `get_next_random(lower, upper)` from `src/run.py`:
`round(random.uniform(lower, upper), 2)`, with the uniform sample `r ∈ [0,1]`
passed explicitly. -/
def get_next_random (lower upper : ℤ) (r : ℚ) : ℚ :=
  pyRound2 (uniform (lower : ℚ) (upper : ℚ) r)

/-- A Python `bytes` value, as a list of byte values. -/
abbrev Token := List Nat

/-- The ASCII byte of the lowercase hex digit for `n < 16`
(`0`–`9` → 48–57, `a`–`f` → 97–102). -/
def hexByte (n : Nat) : Nat := if n < 10 then 48 + n else 87 + n

/-- Fixed-width big-endian lowercase-hex ASCII encoding of `n`
(`"%0*x" % (w, n)` for `n < 16^w`). -/
def toHexBytes : Nat → Nat → List Nat
  | 0, _ => []
  | w + 1, n => toHexBytes w (n / 16) ++ [hexByte (n % 16)]

/-- The numeric value of a lowercase hex digit's ASCII byte. -/
def hexByteVal (b : Nat) : Nat := if b < 58 then b - 48 else b - 87

/-- Decodes a big-endian hex ASCII byte string back to the number. -/
def ofHexBytes (bs : List Nat) : Nat :=
  bs.foldl (fun acc b => 16 * acc + hexByteVal b) 0

/-- The 32 lowercase hex digits (`"%032x"`) of a 128-bit UUID value, as
ASCII bytes. -/
def uuidHex (n : Nat) : List Nat := toHexBytes 32 (n % 2 ^ 128)

/-- `bytes(str(uuid.uuid1()), "utf-8")` for a UUID with 128-bit integer value
`n`: the 32 lowercase hex digits grouped 8-4-4-4-12 with `-` (byte 45) between
groups, as ASCII bytes. -/
def uuidBytes (n : Nat) : Token :=
  (uuidHex n).take 8 ++ [45] ++ ((uuidHex n).drop 8).take 4 ++ [45] ++
    ((uuidHex n).drop 12).take 4 ++ [45] ++ ((uuidHex n).drop 16).take 4 ++
    [45] ++ (uuidHex n).drop 20

/-- Python truthiness of the `correlation_data` argument of
`MQTTClient.publish` (`not correlation_data`): `None` and empty `bytes` are
falsy. -/
def falsyBytes : Option Token → Bool
  | none => true
  | some t => t.isEmpty

/-- One call to `paho`'s `client.publish`, recorded as the data it carries.
The payload string `json.dumps(out_message)` is carried as the structured
record `out_message` itself (serialization abstracted). -/
structure PublishCall where
  topic : String
  payload : Obj
  qos : Nat
  retain : Bool
  correlationData : Token
deriving Repr

/-- `MQTTClient.publish` from `src/run.py`: sets the `CorrelationData`
property to `bytes(str(uuid.uuid1()), "utf-8")` when `correlation_data` is
falsy and to `correlation_data` otherwise, then publishes on `self.topic`
with QoS 2 and `retain=False`.  `selfTopic` is `self.topic`; `freshUuid` is
the 128-bit value of the `uuid.uuid1()` drawn for this call. -/
def MQTTClient.publish (selfTopic : String) (payload : Obj)
    (correlation_data : Option Token) (freshUuid : Nat) : PublishCall :=
  { topic := selfTopic
    payload := payload
    qos := 2
    retain := false
    correlationData :=
      if falsyBytes correlation_data then uuidBytes freshUuid
      else correlation_data.getD [] }

/-- `DoorActuator.__simulation`:
`out_message = {"open": True}; out_message["open"] = message["open"]`. -/
def DoorActuator.simulation (message : Obj) : Except PyErr Obj := do
  let out_message : Obj := [("open", J.bool true)]
  let v ← getItem message "open"
  pure (setKey out_message "open" v)

/-- `Thermostat.__simulation`:
`out_message = {"active": True, "state": 0};
out_message["active"] = message["active"];
if out_message["active"]: out_message["state"] = message["state"]`. -/
def Thermostat.simulation (message : Obj) : Except PyErr Obj := do
  let out_message : Obj := [("active", J.bool true), ("state", J.num 0)]
  let a ← getItem message "active"
  let out_message := setKey out_message "active" a
  let cond ← getItem out_message "active"
  if truthy cond then do
    let s ← getItem message "state"
    pure (setKey out_message "state" s)
  else
    pure out_message

/-- `FireAlarm.__simulation`:
`out_message = {"alert": True}; out_message["alert"] = message["alert"]`. -/
def FireAlarm.simulation (message : Obj) : Except PyErr Obj := do
  let out_message : Obj := [("alert", J.bool true)]
  let v ← getItem message "alert"
  pure (setKey out_message "alert" v)

/-- `Shutter.__simulation`:
`out_message = {"active": True, "percentage": 0};
out_message["active"] = message["active"];
if out_message["active"]: out_message["percentage"] = message["percentage"]`. -/
def Shutter.simulation (message : Obj) : Except PyErr Obj := do
  let out_message : Obj := [("active", J.bool true), ("percentage", J.num 0)]
  let a ← getItem message "active"
  let out_message := setKey out_message "active" a
  let cond ← getItem out_message "active"
  if truthy cond then do
    let p ← getItem message "percentage"
    pure (setKey out_message "percentage" p)
  else
    pure out_message

/-- `LedBulb.__simulation`:
`out_message = {"on": True}; out_message["on"] = message["on"]`. -/
def LedBulb.simulation (message : Obj) : Except PyErr Obj := do
  let out_message : Obj := [("on", J.bool true)]
  let v ← getItem message "on"
  pure (setKey out_message "on" v)

/-- `MQTTActuator.__on_message` from `src/run.py`.  After the randomized
1–10 ms `time.sleep`, it runs
`in_message = json.loads(message.payload.decode("utf-8"))` (raising
`JSONDecodeError` when the payload is malformed, modelled by
`rawPayload = none`), applies `self.simulation`, overwrites `battery` and
`linkquality` with fresh `get_next_random` draws (uniform samples `u1`, `u2`),
and publishes via `self.publish(json.dumps(out_message),
message.properties.CorrelationData)`.  The handler has no `try`/`except`: an
exception is returned as `Except.error` and escapes the handler.
`corrData` is the inbound message's `CorrelationData` bytes; `freshUuid` is
the `uuid.uuid1()` value `publish` would draw. -/
def MQTTActuator.on_message (simulation : Obj → Except PyErr Obj)
    (selfTopic : String) (rawPayload : Option Obj) (corrData : Token)
    (u1 u2 : ℚ) (freshUuid : Nat) : Except PyErr PublishCall := do
  let in_message ← match rawPayload with
    | some m => pure m
    | none => Except.error PyErr.jsonDecodeError
  let out_message ← simulation in_message
  let out_message := setKey out_message "battery" (J.num (get_next_random 89 92 u1))
  let out_message := setKey out_message "linkquality" (J.num (get_next_random 50 255 u2))
  pure (MQTTClient.publish selfTopic out_message (some corrData) freshUuid)

/-- `MQTTClient.__init__`: `self.topic = f"{self.main_topic}/{topic}"` with
`main_topic = "mind2"`. -/
def MQTTClient.mkTopic (name : String) : String := "mind2" ++ "/" ++ name

/-- The topic subscribed by `MQTTActuator.__on_connect` on a successful
connect (`rc == 0`): `f"{self.topic}/toggleState"`. -/
def MQTTActuator.connectSubscription (selfTopic : String) : String :=
  selfTopic ++ "/toggleState"

/-- Effect of `client.subscribe(t)` on the client's subscription set. -/
def subscribeSet (subs : List String) (t : String) : List String :=
  subs ++ [t]

/-- Effect of `client.unsubscribe(t)` on the client's subscription set:
removes `t` (a no-op when `t` was never subscribed). -/
def unsubscribeSet (subs : List String) (t : String) : List String :=
  subs.filter (fun s => s ≠ t)

/-- The subscription set of an actuator once `MQTTActuator.__on_connect` has
run with `rc == 0`, starting from the empty set of a fresh client. -/
def MQTTActuator.subsAfterConnect (selfTopic : String) : List String :=
  subscribeSet [] (MQTTActuator.connectSubscription selfTopic)

/-- The topic passed to `client.unsubscribe` by the terminal branch of
`MQTTActuator.loop` (after `SIMULATION_ALIVE` turns false):
`self.client.unsubscribe(self.topic)`. -/
def MQTTActuator.loopUnsubscribeTopic (selfTopic : String) : String :=
  selfTopic

/-- The subscription set of an actuator after `MQTTActuator.loop` has run its
terminal unsubscribe-then-disconnect sequence. -/
def MQTTActuator.subsAfterShutdown (selfTopic : String) : List String :=
  unsubscribeSet (MQTTActuator.subsAfterConnect selfTopic)
    (MQTTActuator.loopUnsubscribeTopic selfTopic)

/-- One outbound sensor message together with the bounds `(lo, hi)` passed to
`random.randint` for the `time.sleep` ending the simulation tick. -/
structure SensorTick where
  message : Obj
  sleepBounds : ℤ × ℤ
deriving Repr

/-- `TemperatureSensor.__simulation`: the four `get_next_random` draws (with
uniform samples `r1`–`r4`) followed by `time.sleep(random.randint(10, 15))`. -/
def TemperatureSensor.simulation (r1 r2 r3 r4 : ℚ) : SensorTick :=
  { message :=
      [("temperature", J.num (get_next_random 18 26 r1)),
       ("humidity", J.num (get_next_random 40 90 r2)),
       ("battery", J.num (get_next_random 89 92 r3)),
       ("linkquality", J.num (get_next_random 50 255 r4))]
    sleepBounds := (10, 15) }

/-- `MotionSensor.__simulation`: `decision` has one `True` in eight slots,
indexed by `random.randint(0, 7)` (`i`), then
`time.sleep(random.randint(30, 60))`. -/
def MotionSensor.simulation (i : Fin 8) (r3 r4 : ℚ) : SensorTick :=
  let decision := [true, false, false, false, false, false, false, false]
  { message :=
      [("on", J.bool true),
       ("alert", J.bool (decision.getD i false)),
       ("battery", J.num (get_next_random 89 92 r3)),
       ("linkquality", J.num (get_next_random 50 255 r4))]
    sleepBounds := (30, 60) }

/-- `WindowSensor.__simulation`: one `True` in eight slots, then
`time.sleep(random.randint(100, 200))`. -/
def WindowSensor.simulation (i : Fin 8) (r3 r4 : ℚ) : SensorTick :=
  let decision := [true, false, false, false, false, false, false, false]
  { message :=
      [("open", J.bool (decision.getD i false)),
       ("battery", J.num (get_next_random 89 92 r3)),
       ("linkquality", J.num (get_next_random 50 255 r4))]
    sleepBounds := (100, 200) }

/-- `DoorSensor.__simulation`: one `True` in eight slots, then
`time.sleep(random.randint(100, 200))`. -/
def DoorSensor.simulation (i : Fin 8) (r3 r4 : ℚ) : SensorTick :=
  let decision := [true, false, false, false, false, false, false, false]
  { message :=
      [("open", J.bool (decision.getD i false)),
       ("battery", J.num (get_next_random 89 92 r3)),
       ("linkquality", J.num (get_next_random 50 255 r4))]
    sleepBounds := (100, 200) }

/-- `SmokeDetector.__simulation`: one `True` in eleven slots, indexed by
`random.randint(0, 10)`, then `time.sleep(random.randint(100, 200))`. -/
def SmokeDetector.simulation (i : Fin 11) (r3 r4 : ℚ) : SensorTick :=
  let decision := [true, false, false, false, false, false, false, false,
                   false, false, false]
  { message :=
      [("on", J.bool true),
       ("alert", J.bool (decision.getD i false)),
       ("battery", J.num (get_next_random 89 92 r3)),
       ("linkquality", J.num (get_next_random 50 255 r4))]
    sleepBounds := (100, 200) }

/-- The five concrete sensor classes of `src/run.py`. -/
inductive SensorType where
  | temperature : SensorType
  | motion : SensorType
  | window : SensorType
  | door : SensorType
  | smoke : SensorType
deriving Repr, DecidableEq

/-- The `random.randint` bounds of the per-cycle `time.sleep` of each sensor
class's `__simulation`, read off from the simulation of that class. -/
def cadenceRange : SensorType → ℤ × ℤ
  | SensorType.temperature => (TemperatureSensor.simulation 0 0 0 0).sleepBounds
  | SensorType.motion => (MotionSensor.simulation 0 0 0).sleepBounds
  | SensorType.window => (WindowSensor.simulation 0 0 0).sleepBounds
  | SensorType.door => (DoorSensor.simulation 0 0 0).sleepBounds
  | SensorType.smoke => (SmokeDetector.simulation 0 0 0).sleepBounds

/-- The five concrete actuator classes of `src/run.py`. -/
inductive ActuatorType where
  | door : ActuatorType
  | thermostat : ActuatorType
  | firealarm : ActuatorType
  | shutter : ActuatorType
  | ledbulb : ActuatorType
deriving Repr, DecidableEq

/-- The `__simulation` transform of each actuator class. -/
def transformOf : ActuatorType → (Obj → Except PyErr Obj)
  | ActuatorType.door => DoorActuator.simulation
  | ActuatorType.thermostat => Thermostat.simulation
  | ActuatorType.firealarm => FireAlarm.simulation
  | ActuatorType.shutter => Shutter.simulation
  | ActuatorType.ledbulb => LedBulb.simulation

/-- The keys of each actuator transform's output record. -/
def transformKeys : ActuatorType → List String
  | ActuatorType.door => ["open"]
  | ActuatorType.thermostat => ["active", "state"]
  | ActuatorType.firealarm => ["alert"]
  | ActuatorType.shutter => ["active", "percentage"]
  | ActuatorType.ledbulb => ["on"]

/-- `q` is a value with (at most) two decimal places: an integer number of
hundredths, as produced by `round(x, 2)`. -/
def twoDecimals (q : ℚ) : Prop := ∃ z : ℤ, q = (z : ℚ) / 100

/-- `q` lies in the closed interval `[lo, hi]`. -/
def inRange (lo hi : ℤ) (q : ℚ) : Prop := (lo : ℚ) ≤ q ∧ q ≤ (hi : ℚ)

/-! ## Helper lemmas -/

theorem roundHalfEven_ge (m : ℤ) (q : ℚ) (h : (m : ℚ) ≤ q) :
    m ≤ roundHalfEven q := by
  unfold roundHalfEven
  split
  · split
    · exact Int.le_floor.mpr h
    · exact le_trans (Int.le_floor.mpr h) (by omega)
  · rw [round_eq]
    exact Int.le_floor.mpr (by linarith)

theorem roundHalfEven_le (M : ℤ) (q : ℚ) (h : q ≤ (M : ℚ)) :
    roundHalfEven q ≤ M := by
  unfold roundHalfEven
  split
  · rename_i hf
    have hq : q - (⌊q⌋ : ℚ) = 1 / 2 := by
      have := hf
      rwa [Int.fract] at this
    have hlt : ((⌊q⌋ : ℤ) : ℚ) < (M : ℚ) := by linarith
    have hlt' : ⌊q⌋ < M := by exact_mod_cast hlt
    split
    · omega
    · omega
  · rw [round_eq]
    have : q + 1 / 2 ≤ (M : ℚ) + 1 / 2 := by linarith
    calc ⌊q + 1 / 2⌋ ≤ ⌊(M : ℚ) + 1 / 2⌋ := Int.floor_le_floor this
      _ = M := by
          rw [add_comm, Int.floor_add_int]
          norm_num

theorem pyRound2_bounds (lo hi : ℤ) (q : ℚ) (h0 : (lo : ℚ) ≤ q)
    (h1 : q ≤ (hi : ℚ)) : inRange lo hi (pyRound2 q) := by
  unfold pyRound2 inRange
  have hge : (100 * lo : ℤ) ≤ roundHalfEven (100 * q) := by
    apply roundHalfEven_ge
    push_cast
    linarith
  have hle : roundHalfEven (100 * q) ≤ (100 * hi : ℤ) := by
    apply roundHalfEven_le
    push_cast
    linarith
  constructor
  · rw [le_div_iff₀ (by norm_num : (0 : ℚ) < 100)]
    calc (lo : ℚ) * 100 = ((100 * lo : ℤ) : ℚ) := by push_cast; ring
      _ ≤ (roundHalfEven (100 * q) : ℚ) := by exact_mod_cast hge
  · rw [div_le_iff₀ (by norm_num : (0 : ℚ) < 100)]
    calc (roundHalfEven (100 * q) : ℚ) ≤ ((100 * hi : ℤ) : ℚ) := by
          exact_mod_cast hle
      _ = (hi : ℚ) * 100 := by push_cast; ring

theorem uniform_bounds (a b r : ℚ) (hab : a ≤ b) (h0 : 0 ≤ r) (h1 : r ≤ 1) :
    a ≤ uniform a b r ∧ uniform a b r ≤ b := by
  unfold uniform
  constructor
  · nlinarith
  · nlinarith

theorem get_next_random_inRange (lower upper : ℤ) (r : ℚ)
    (hlu : lower ≤ upper) (h0 : 0 ≤ r) (h1 : r ≤ 1) :
    inRange lower upper (get_next_random lower upper r) := by
  have hab : (lower : ℚ) ≤ (upper : ℚ) := by exact_mod_cast hlu
  have hu := uniform_bounds (lower : ℚ) (upper : ℚ) r hab h0 h1
  exact pyRound2_bounds lower upper _ hu.1 hu.2

theorem get_next_random_twoDecimals (lower upper : ℤ) (r : ℚ) :
    twoDecimals (get_next_random lower upper r) :=
  ⟨roundHalfEven (100 * uniform (lower : ℚ) (upper : ℚ) r), rfl⟩

theorem length_toHexBytes (w n : Nat) : (toHexBytes w n).length = w := by
  induction w generalizing n with
  | zero => rfl
  | succ w ih => simp [toHexBytes, ih]

theorem hexByteVal_hexByte (d : Nat) (hd : d < 16) :
    hexByteVal (hexByte d) = d := by
  unfold hexByte hexByteVal
  split <;> split <;> omega

theorem hexByte_ne_45 (d : Nat) : hexByte d ≠ 45 := by
  unfold hexByte
  split <;> omega

theorem mem_toHexBytes_ne_45 (w n b : Nat) (hb : b ∈ toHexBytes w n) :
    b ≠ 45 := by
  induction w generalizing n with
  | zero => simp [toHexBytes] at hb
  | succ w ih =>
    simp only [toHexBytes, List.mem_append, List.mem_singleton] at hb
    rcases hb with hb | hb
    · exact ih _ hb
    · rw [hb]; exact hexByte_ne_45 _

theorem ofHexBytes_append_singleton (bs : List Nat) (b : Nat) :
    ofHexBytes (bs ++ [b]) = 16 * ofHexBytes bs + hexByteVal b := by
  unfold ofHexBytes
  rw [List.foldl_append]
  rfl

theorem ofHexBytes_toHexBytes (w n : Nat) (hn : n < 16 ^ w) :
    ofHexBytes (toHexBytes w n) = n := by
  induction w generalizing n with
  | zero =>
    have : n = 0 := by simpa using Nat.lt_one_iff.mp (by simpa using hn)
    simp [this, toHexBytes, ofHexBytes]
  | succ w ih =>
    have hdiv : n / 16 < 16 ^ w := by
      rw [Nat.div_lt_iff_lt_mul (by norm_num : 0 < 16)]
      calc n < 16 ^ (w + 1) := hn
        _ = 16 ^ w * 16 := by ring
    rw [toHexBytes, ofHexBytes_append_singleton, ih _ hdiv,
      hexByteVal_hexByte _ (Nat.mod_lt _ (by norm_num))]
    omega

theorem toHexBytes_injOn (w m n : Nat) (hm : m < 16 ^ w) (hn : n < 16 ^ w)
    (h : toHexBytes w m = toHexBytes w n) : m = n := by
  have := congrArg ofHexBytes h
  rwa [ofHexBytes_toHexBytes w m hm, ofHexBytes_toHexBytes w n hn] at this

theorem segments_reassemble (l : List Nat) :
    l.take 8 ++ ((l.drop 8).take 4 ++ ((l.drop 12).take 4 ++
      ((l.drop 16).take 4 ++ l.drop 20))) = l := by
  have h20 : l.drop 20 = (l.drop 16).drop 4 := by
    rw [List.drop_drop]
  have h16 : l.drop 16 = (l.drop 12).drop 4 := by
    rw [List.drop_drop]
  have h12 : l.drop 12 = (l.drop 8).drop 4 := by
    rw [List.drop_drop]
  rw [h20, List.take_append_drop, h16, List.take_append_drop, h12,
    List.take_append_drop, List.take_append_drop]

theorem mem_uuidHex_ne_45 (n : Nat) : ∀ b ∈ uuidHex n, b ≠ 45 :=
  fun b hb => mem_toHexBytes_ne_45 32 (n % 2 ^ 128) b hb

theorem filter_uuid_parts (h : List Nat) (hh : ∀ b ∈ h, b ≠ 45) :
    (h.take 8 ++ [45] ++ (h.drop 8).take 4 ++ [45] ++ (h.drop 12).take 4 ++
      [45] ++ (h.drop 16).take 4 ++ [45] ++ h.drop 20).filter
        (fun b => b ≠ 45) = h := by
  have hseg : ∀ l : List Nat, (∀ b ∈ l, b ∈ h) →
      l.filter (fun b => b ≠ 45) = l := by
    intro l hl
    apply List.filter_eq_self.mpr
    intro b hb
    simpa using hh b (hl b hb)
  have h45 : ([45] : List Nat).filter (fun b => b ≠ 45) = [] := by decide
  simp only [List.filter_append, List.append_assoc, h45, List.nil_append,
    List.append_nil]
  rw [hseg _ (fun b hb => List.mem_of_mem_take hb),
    hseg _ (fun b hb => List.mem_of_mem_drop (List.mem_of_mem_take hb)),
    hseg _ (fun b hb => List.mem_of_mem_drop (List.mem_of_mem_take hb)),
    hseg _ (fun b hb => List.mem_of_mem_drop (List.mem_of_mem_take hb)),
    hseg _ (fun b hb => List.mem_of_mem_drop hb)]
  exact segments_reassemble _

theorem filter_uuidBytes (n : Nat) :
    (uuidBytes n).filter (fun b => b ≠ 45) = uuidHex n :=
  filter_uuid_parts (uuidHex n) (mem_uuidHex_ne_45 n)

theorem uuidHex_injOn (m n : Nat) (hm : m < 2 ^ 128) (hn : n < 2 ^ 128)
    (hf : uuidHex m = uuidHex n) : m = n := by
  have h16 : (16 : Nat) ^ 32 = 2 ^ 128 := by norm_num
  have hm' : m % 2 ^ 128 < 16 ^ 32 := by
    rw [h16]; exact Nat.mod_lt _ (by positivity)
  have hn' : n % 2 ^ 128 < 16 ^ 32 := by
    rw [h16]; exact Nat.mod_lt _ (by positivity)
  have := toHexBytes_injOn 32 _ _ hm' hn' hf
  rwa [Nat.mod_eq_of_lt hm, Nat.mod_eq_of_lt hn] at this

theorem uuidBytes_injOn (m n : Nat) (hm : m < 2 ^ 128) (hn : n < 2 ^ 128)
    (hne : m ≠ n) : uuidBytes m ≠ uuidBytes n := by
  intro h
  have hf := congrArg (List.filter (fun b => b ≠ 45)) h
  rw [filter_uuidBytes, filter_uuidBytes] at hf
  exact hne (uuidHex_injOn m n hm hn hf)

theorem uuid_parts_ne_nil (h : List Nat) :
    h.take 8 ++ [45] ++ (h.drop 8).take 4 ++ [45] ++ (h.drop 12).take 4 ++
      [45] ++ (h.drop 16).take 4 ++ [45] ++ h.drop 20 ≠ ([] : List Nat) := by
  intro he
  simp [List.append_eq_nil] at he

theorem uuidBytes_ne_nil (n : Nat) : uuidBytes n ≠ [] :=
  uuid_parts_ne_nil (uuidHex n)

theorem getKey?_setKey_self (o : Obj) (k : String) (v : J) :
    getKey? (setKey o k v) k = some v := by
  induction o with
  | nil => simp [setKey, getKey?]
  | cons kv rest ih =>
    by_cases h : kv.1 = k
    · simp [setKey, getKey?, h]
    · simp [setKey, getKey?, h, ih]

theorem getKey?_setKey_ne (o : Obj) (k k' : String) (v : J) (h : k' ≠ k) :
    getKey? (setKey o k' v) k = getKey? o k := by
  induction o with
  | nil => simp [setKey, getKey?, h]
  | cons kv rest ih =>
    by_cases hk : kv.1 = k'
    · simp [setKey, getKey?, hk, h]
    · simp only [setKey, hk, if_false, getKey?]
      by_cases hk2 : kv.1 = k
      · simp [hk2]
      · simp [hk2, ih]

theorem keys_setKey_notMem (o : Obj) (k : String) (v : J)
    (h : k ∉ keys o) : keys (setKey o k v) = keys o ++ [k] := by
  induction o with
  | nil => simp [setKey, keys]
  | cons kv rest ih =>
    simp only [keys, List.map_cons, List.mem_cons] at h
    push_neg at h
    have hne : kv.1 ≠ k := Ne.symm h.1
    have ih' : List.map Prod.fst (setKey rest k v) =
        List.map Prod.fst rest ++ [k] := ih h.2
    simp [setKey, hne, keys, ih']

theorem doorSim_ok (msg : Obj) (v : J) (h : getKey? msg "open" = some v) :
    DoorActuator.simulation msg = Except.ok [("open", v)] := by
  simp [DoorActuator.simulation, getItem, h, setKey]

theorem fireSim_ok (msg : Obj) (v : J) (h : getKey? msg "alert" = some v) :
    FireAlarm.simulation msg = Except.ok [("alert", v)] := by
  simp [FireAlarm.simulation, getItem, h, setKey]

theorem ledSim_ok (msg : Obj) (v : J) (h : getKey? msg "on" = some v) :
    LedBulb.simulation msg = Except.ok [("on", v)] := by
  simp [LedBulb.simulation, getItem, h, setKey]

theorem thermoSim_falsy (msg : Obj) (a : J)
    (ha : getKey? msg "active" = some a) (ht : truthy a = false) :
    Thermostat.simulation msg = Except.ok [("active", a), ("state", J.num 0)] := by
  simp [Thermostat.simulation, getItem, ha, setKey, getKey?, ht,
    Bind.bind, Except.bind, Pure.pure, Except.pure]

theorem thermoSim_truthy (msg : Obj) (a s : J)
    (ha : getKey? msg "active" = some a) (ht : truthy a = true)
    (hs : getKey? msg "state" = some s) :
    Thermostat.simulation msg = Except.ok [("active", a), ("state", s)] := by
  simp [Thermostat.simulation, getItem, ha, setKey, getKey?, ht, hs,
    Bind.bind, Except.bind, Pure.pure, Except.pure]

theorem shutterSim_falsy (msg : Obj) (a : J)
    (ha : getKey? msg "active" = some a) (ht : truthy a = false) :
    Shutter.simulation msg =
      Except.ok [("active", a), ("percentage", J.num 0)] := by
  simp [Shutter.simulation, getItem, ha, setKey, getKey?, ht,
    Bind.bind, Except.bind, Pure.pure, Except.pure]

theorem shutterSim_truthy (msg : Obj) (a p : J)
    (ha : getKey? msg "active" = some a) (ht : truthy a = true)
    (hp : getKey? msg "percentage" = some p) :
    Shutter.simulation msg = Except.ok [("active", a), ("percentage", p)] := by
  simp [Shutter.simulation, getItem, ha, setKey, getKey?, ht, hp,
    Bind.bind, Except.bind, Pure.pure, Except.pure]

theorem transform_ok_keys (a : ActuatorType) (msg out : Obj)
    (hsim : transformOf a msg = Except.ok out) :
    keys out = transformKeys a := by
  cases a with
  | door =>
    cases h : getKey? msg "open" with
    | none => simp [transformOf, DoorActuator.simulation, getItem, h] at hsim
    | some v =>
      rw [transformOf, doorSim_ok msg v h] at hsim
      cases hsim
      rfl
  | thermostat =>
    cases h : getKey? msg "active" with
    | none => simp [transformOf, Thermostat.simulation, getItem, h,
        Bind.bind, Except.bind] at hsim
    | some a' =>
      cases ht : truthy a' with
      | false =>
        rw [transformOf, thermoSim_falsy msg a' h ht] at hsim
        cases hsim
        rfl
      | true =>
        cases hs : getKey? msg "state" with
        | none =>
          simp [transformOf, Thermostat.simulation, getItem, h, setKey,
            getKey?, ht, hs, Bind.bind, Except.bind, Pure.pure, Except.pure] at hsim
        | some s =>
          rw [transformOf, thermoSim_truthy msg a' s h ht hs] at hsim
          cases hsim
          rfl
  | firealarm =>
    cases h : getKey? msg "alert" with
    | none => simp [transformOf, FireAlarm.simulation, getItem, h] at hsim
    | some v =>
      rw [transformOf, fireSim_ok msg v h] at hsim
      cases hsim
      rfl
  | shutter =>
    cases h : getKey? msg "active" with
    | none => simp [transformOf, Shutter.simulation, getItem, h,
        Bind.bind, Except.bind] at hsim
    | some a' =>
      cases ht : truthy a' with
      | false =>
        rw [transformOf, shutterSim_falsy msg a' h ht] at hsim
        cases hsim
        rfl
      | true =>
        cases hp : getKey? msg "percentage" with
        | none =>
          simp [transformOf, Shutter.simulation, getItem, h, setKey,
            getKey?, ht, hp, Bind.bind, Except.bind, Pure.pure, Except.pure] at hsim
        | some p =>
          rw [transformOf, shutterSim_truthy msg a' p h ht hp] at hsim
          cases hsim
          rfl
  | ledbulb =>
    cases h : getKey? msg "on" with
    | none => simp [transformOf, LedBulb.simulation, getItem, h] at hsim
    | some v =>
      rw [transformOf, ledSim_ok msg v h] at hsim
      cases hsim
      rfl

theorem on_message_ok (simulation : Obj → Except PyErr Obj)
    (selfTopic : String) (msg out : Obj) (corrData : Token) (u1 u2 : ℚ)
    (n : Nat) (hsim : simulation msg = Except.ok out) :
    MQTTActuator.on_message simulation selfTopic (some msg) corrData u1 u2 n =
      Except.ok (MQTTClient.publish selfTopic
        (setKey (setKey out "battery" (J.num (get_next_random 89 92 u1)))
          "linkquality" (J.num (get_next_random 50 255 u2)))
        (some corrData) n) := by
  simp [MQTTActuator.on_message, hsim]

theorem on_message_sim_err (simulation : Obj → Except PyErr Obj)
    (selfTopic : String) (msg : Obj) (e : PyErr) (corrData : Token)
    (u1 u2 : ℚ) (n : Nat) (hsim : simulation msg = Except.error e) :
    MQTTActuator.on_message simulation selfTopic (some msg) corrData u1 u2 n =
      Except.error e := by
  simp [MQTTActuator.on_message, hsim]

theorem publish_corr_of_truthy (selfTopic : String) (payload : Obj)
    (t : Token) (n : Nat) (h : t ≠ []) :
    (MQTTClient.publish selfTopic payload (some t) n).correlationData = t := by
  have : t.isEmpty = false := by
    cases t with
    | nil => exact absurd rfl h
    | cons a l => rfl
  simp [MQTTClient.publish, falsyBytes, this]

theorem publish_corr_of_falsy (selfTopic : String) (payload : Obj)
    (cd : Option Token) (n : Nat) (h : falsyBytes cd = true) :
    (MQTTClient.publish selfTopic payload cd n).correlationData =
      uuidBytes n := by
  simp [MQTTClient.publish, h]

/-! ## Claims -/

/-- C1 (amended): for every inbound actuator command whose correlation token
is non-empty, the response published by `MQTTActuator.__on_message` carries
the same correlation token as the command.  (As stated over all tokens the
claim fails: an empty token is falsy in `publish`'s
`if not correlation_data` test and is replaced by a fresh uuid; see the
counterexample.) -/
theorem c1_response_echoes_nonempty_token
    (simulation : Obj → Except PyErr Obj) (selfTopic : String)
    (msg out : Obj) (corrData : Token) (u1 u2 : ℚ) (n : Nat)
    (hne : corrData ≠ []) (hsim : simulation msg = Except.ok out) :
    (MQTTActuator.on_message simulation selfTopic (some msg) corrData
        u1 u2 n).map PublishCall.correlationData = Except.ok corrData := by
  rw [on_message_ok simulation selfTopic msg out corrData u1 u2 n hsim]
  simp only [Except.map]
  rw [publish_corr_of_truthy _ _ _ _ hne]

/-- Witness for C1: a concrete door command with token `[97, 98, 99]` gets a
response carrying the same token. -/
theorem c1_response_echoes_nonempty_token_witness :
    ([97, 98, 99] : Token) ≠ [] ∧
    DoorActuator.simulation [("open", J.bool true)] =
      Except.ok [("open", J.bool true)] ∧
    (MQTTActuator.on_message DoorActuator.simulation "mind2/garage-actuator-door"
        (some [("open", J.bool true)]) [97, 98, 99] 0 0 0).map
      PublishCall.correlationData = Except.ok [97, 98, 99] :=
  ⟨by decide, by rfl,
    c1_response_echoes_nonempty_token DoorActuator.simulation
      "mind2/garage-actuator-door" [("open", J.bool true)]
      [("open", J.bool true)] [97, 98, 99] 0 0 0 (by decide) (by rfl)⟩

/-- C1 counterexample: a command whose correlation token is the empty bytes
`b""` gets a response whose token is a freshly generated uuid, not the
command's token, because `MQTTClient.publish` replaces any falsy
`correlation_data` with `bytes(str(uuid.uuid1()), "utf-8")`. -/
theorem c1_empty_token_not_echoed :
    (MQTTActuator.on_message DoorActuator.simulation
        "mind2/garage-actuator-door" (some [("open", J.bool true)]) []
        0 0 0).map PublishCall.correlationData = Except.ok (uuidBytes 0) ∧
    (MQTTActuator.on_message DoorActuator.simulation
        "mind2/garage-actuator-door" (some [("open", J.bool true)]) []
        0 0 0).map PublishCall.correlationData ≠
      Except.ok ([] : Token) := by
  have h2 : (MQTTActuator.on_message DoorActuator.simulation
      "mind2/garage-actuator-door" (some [("open", J.bool true)]) []
      0 0 0).map PublishCall.correlationData = Except.ok (uuidBytes 0) := rfl
  refine ⟨h2, ?_⟩
  rw [h2]
  simp [uuidBytes_ne_nil 0]

/-- C2: a malformed inbound payload (`json.loads` failure) makes
`MQTTActuator.__on_message` raise: the source has no `try`/`except`, so the
`JSONDecodeError` escapes the handler instead of the message being dropped
and logged.  This contradicts the spec's error-handling design (a code bug):
the exception propagates out of the callback and kills the paho network
thread, blocking all subsequent messages. -/
theorem c2_malformed_payload_raises (simulation : Obj → Except PyErr Obj)
    (selfTopic : String) (corrData : Token) (u1 u2 : ℚ) (n : Nat) :
    MQTTActuator.on_message simulation selfTopic none corrData u1 u2 n =
      Except.error PyErr.jsonDecodeError := rfl

/-- C3: on shutdown `MQTTActuator.loop` calls
`self.client.unsubscribe(self.topic)`, but the only active subscription
(made by `__on_connect`) is `f"{self.topic}/toggleState"`.  The unsubscribe
therefore targets a topic that was never subscribed, and the agent's
subscription set is still `[topic ++ "/toggleState"]` (non-empty) at
disconnect — contradicting the claimed empty terminal subscription set
(a code bug). -/
theorem c3_shutdown_unsubscribes_wrong_topic (selfTopic : String) :
    MQTTActuator.subsAfterConnect selfTopic =
      [selfTopic ++ "/toggleState"] ∧
    MQTTActuator.loopUnsubscribeTopic selfTopic = selfTopic ∧
    MQTTActuator.loopUnsubscribeTopic selfTopic ≠
      MQTTActuator.connectSubscription selfTopic ∧
    MQTTActuator.subsAfterShutdown selfTopic =
      [selfTopic ++ "/toggleState"] := by
  have hne : selfTopic ++ "/toggleState" ≠ selfTopic := by
    intro h
    have hl := congrArg String.length h
    rw [String.length_append] at hl
    simp at hl
    exact absurd hl (by decide)
  refine ⟨rfl, rfl, fun h => hne h.symm, ?_⟩
  simp [MQTTActuator.subsAfterShutdown, MQTTActuator.subsAfterConnect,
    MQTTActuator.loopUnsubscribeTopic, MQTTActuator.connectSubscription,
    subscribeSet, unsubscribeSet, hne]

/-- C4: a Thermostat (resp. Shutter) command with `active` equal to `false`
always yields a response with `state = 0` (resp. `percentage = 0`),
whatever `state`/`percentage` the command carries; with `active` equal to
`true` the command's `state` (resp. `percentage`) value is echoed. -/
theorem c4_inactive_forces_zero :
    (∀ msg : Obj, getKey? msg "active" = some (J.bool false) →
      Thermostat.simulation msg =
        Except.ok [("active", J.bool false), ("state", J.num 0)]) ∧
    (∀ (msg : Obj) (s : J), getKey? msg "active" = some (J.bool true) →
      getKey? msg "state" = some s →
      Thermostat.simulation msg =
        Except.ok [("active", J.bool true), ("state", s)]) ∧
    (∀ msg : Obj, getKey? msg "active" = some (J.bool false) →
      Shutter.simulation msg =
        Except.ok [("active", J.bool false), ("percentage", J.num 0)]) ∧
    (∀ (msg : Obj) (p : J), getKey? msg "active" = some (J.bool true) →
      getKey? msg "percentage" = some p →
      Shutter.simulation msg =
        Except.ok [("active", J.bool true), ("percentage", p)]) :=
  ⟨fun msg h => thermoSim_falsy msg _ h rfl,
   fun msg s h hs => thermoSim_truthy msg _ s h rfl hs,
   fun msg h => shutterSim_falsy msg _ h rfl,
   fun msg p h hp => shutterSim_truthy msg _ p h rfl hp⟩

/-- Witness for C4: `{"active": false, "state": 5}` yields `state = 0`;
`{"active": false, "percentage": 75}` yields `percentage = 0`. -/
theorem c4_inactive_forces_zero_witness :
    Thermostat.simulation [("active", J.bool false), ("state", J.num 5)] =
      Except.ok [("active", J.bool false), ("state", J.num 0)] ∧
    Shutter.simulation [("active", J.bool false), ("percentage", J.num 75)] =
      Except.ok [("active", J.bool false), ("percentage", J.num 0)] :=
  ⟨c4_inactive_forces_zero.1 _ rfl, c4_inactive_forces_zero.2.2.1 _ rfl⟩

/-- C5: contrary to the claim, a parsed command missing the field its
actuator's transform reads never falls back to a default and is never
dropped as a decode error: the bare `message[...]` subscription raises
`KeyError`, which (with no `try`/`except` in `__on_message`) escapes the
handler.  The initialized defaults (`{"open": True}` etc.) are dead stores,
unconditionally overwritten (a code bug). -/
theorem c5_missing_field_raises_keyerror (selfTopic : String)
    (corrData : Token) (u1 u2 : ℚ) (n : Nat) :
    DoorActuator.simulation [] = Except.error (PyErr.keyError "open") ∧
    Thermostat.simulation [] = Except.error (PyErr.keyError "active") ∧
    FireAlarm.simulation [] = Except.error (PyErr.keyError "alert") ∧
    Shutter.simulation [] = Except.error (PyErr.keyError "active") ∧
    LedBulb.simulation [] = Except.error (PyErr.keyError "on") ∧
    Thermostat.simulation [("active", J.bool true)] =
      Except.error (PyErr.keyError "state") ∧
    MQTTActuator.on_message Thermostat.simulation selfTopic (some [])
      corrData u1 u2 n = Except.error (PyErr.keyError "active") ∧
    MQTTActuator.on_message DoorActuator.simulation selfTopic (some [])
      corrData u1 u2 n = Except.error (PyErr.keyError "open") :=
  ⟨rfl, rfl, rfl, rfl, rfl, rfl,
   on_message_sim_err _ _ _ _ _ _ _ _ rfl,
   on_message_sim_err _ _ _ _ _ _ _ _ rfl⟩

/-- C6: every `MQTTClient.publish` carries a non-empty correlation token;
a missing or falsy caller token is replaced by a fresh uuid (distinct
128-bit uuid values give distinct tokens); the publish always uses QoS 2,
`retain = false`, and the agent's own topic. -/
theorem c6_publish_fresh_nonempty_token (selfTopic : String) (payload : Obj)
    (cd : Option Token) (n m : Nat) (hn : n < 2 ^ 128) (hm : m < 2 ^ 128)
    (hnm : n ≠ m) :
    (MQTTClient.publish selfTopic payload cd n).correlationData ≠ [] ∧
    (MQTTClient.publish selfTopic payload none n).correlationData =
      uuidBytes n ∧
    (MQTTClient.publish selfTopic payload (some []) n).correlationData =
      uuidBytes n ∧
    uuidBytes n ≠ uuidBytes m ∧
    (MQTTClient.publish selfTopic payload cd n).qos = 2 ∧
    (MQTTClient.publish selfTopic payload cd n).retain = false ∧
    (MQTTClient.publish selfTopic payload cd n).topic = selfTopic := by
  refine ⟨?_, publish_corr_of_falsy _ _ _ _ rfl,
    publish_corr_of_falsy _ _ _ _ rfl, uuidBytes_injOn n m hn hm hnm,
    rfl, rfl, rfl⟩
  cases cd with
  | none =>
    rw [publish_corr_of_falsy selfTopic payload none n rfl]
    exact uuidBytes_ne_nil n
  | some t =>
    cases t with
    | nil =>
      rw [publish_corr_of_falsy selfTopic payload (some []) n rfl]
      exact uuidBytes_ne_nil n
    | cons b bs =>
      rw [publish_corr_of_truthy _ _ _ _ (by simp)]
      simp

/-- Witness for C6 at uuid values 0 and 1. -/
theorem c6_publish_fresh_nonempty_token_witness :
    (MQTTClient.publish "mind2/garage-actuator-led" [] none 0).correlationData
      ≠ [] ∧
    uuidBytes 0 ≠ uuidBytes 1 :=
  ⟨(c6_publish_fresh_nonempty_token "mind2/garage-actuator-led" [] none 0 1
      (by norm_num) (by norm_num) (by norm_num)).1,
   (c6_publish_fresh_nonempty_token "mind2/garage-actuator-led" [] none 0 1
      (by norm_num) (by norm_num) (by norm_num)).2.2.2.1⟩

/-- C7: `get_next_random lo hi` stays within `[lo, hi]` and returns a value
with two decimal places, for any uniform sample in `[0, 1]`; in particular
each field of a temperature-sensor reading is the `get_next_random` draw at
its declared range (`temperature ∈ [18,26]`, `humidity ∈ [40,90]`,
`battery ∈ [89,92]`, `linkquality ∈ [50,255]`) and therefore in range and
two-decimal. -/
theorem c7_reading_fields_in_declared_range (lower upper : ℤ)
    (r r1 r2 r3 r4 : ℚ) (hlu : lower ≤ upper) (hr0 : 0 ≤ r) (hr1 : r ≤ 1)
    (h10 : 0 ≤ r1) (h11 : r1 ≤ 1) (h20 : 0 ≤ r2) (h21 : r2 ≤ 1)
    (h30 : 0 ≤ r3) (h31 : r3 ≤ 1) (h40 : 0 ≤ r4) (h41 : r4 ≤ 1) :
    inRange lower upper (get_next_random lower upper r) ∧
    twoDecimals (get_next_random lower upper r) ∧
    (TemperatureSensor.simulation r1 r2 r3 r4).message =
      [("temperature", J.num (get_next_random 18 26 r1)),
       ("humidity", J.num (get_next_random 40 90 r2)),
       ("battery", J.num (get_next_random 89 92 r3)),
       ("linkquality", J.num (get_next_random 50 255 r4))] ∧
    inRange 18 26 (get_next_random 18 26 r1) ∧
    twoDecimals (get_next_random 18 26 r1) ∧
    inRange 40 90 (get_next_random 40 90 r2) ∧
    twoDecimals (get_next_random 40 90 r2) ∧
    inRange 89 92 (get_next_random 89 92 r3) ∧
    twoDecimals (get_next_random 89 92 r3) ∧
    inRange 50 255 (get_next_random 50 255 r4) ∧
    twoDecimals (get_next_random 50 255 r4) :=
  ⟨get_next_random_inRange _ _ _ hlu hr0 hr1,
   get_next_random_twoDecimals _ _ _, rfl,
   get_next_random_inRange _ _ _ (by norm_num) h10 h11,
   get_next_random_twoDecimals _ _ _,
   get_next_random_inRange _ _ _ (by norm_num) h20 h21,
   get_next_random_twoDecimals _ _ _,
   get_next_random_inRange _ _ _ (by norm_num) h30 h31,
   get_next_random_twoDecimals _ _ _,
   get_next_random_inRange _ _ _ (by norm_num) h40 h41,
   get_next_random_twoDecimals _ _ _⟩

/-- Witness for C7 with all uniform samples at `1/2`. -/
theorem c7_reading_fields_in_declared_range_witness :
    inRange 18 26 (get_next_random 18 26 (1/2)) ∧
    twoDecimals (get_next_random 18 26 (1/2)) ∧
    inRange 89 92 (get_next_random 89 92 (1/2)) :=
  ⟨(c7_reading_fields_in_declared_range 18 26 (1/2) (1/2) (1/2) (1/2) (1/2)
      (by norm_num) (by norm_num) (by norm_num) (by norm_num) (by norm_num)
      (by norm_num) (by norm_num) (by norm_num) (by norm_num) (by norm_num)
      (by norm_num)).1,
   (c7_reading_fields_in_declared_range 18 26 (1/2) (1/2) (1/2) (1/2) (1/2)
      (by norm_num) (by norm_num) (by norm_num) (by norm_num) (by norm_num)
      (by norm_num) (by norm_num) (by norm_num) (by norm_num) (by norm_num)
      (by norm_num)).2.1,
   (c7_reading_fields_in_declared_range 18 26 (1/2) (1/2) (1/2) (1/2) (1/2)
      (by norm_num) (by norm_num) (by norm_num) (by norm_num) (by norm_num)
      (by norm_num) (by norm_num) (by norm_num) (by norm_num) (by norm_num)
      (by norm_num)).2.2.2.2.2.2.2.1⟩

/-- C8 counterexample: `WindowSensor` and `SmokeDetector` are distinct
concrete sensor types whose per-cycle suspension ranges are both
`[100, 200]`, so the ranges are not pairwise distinct as claimed. -/
theorem c8_window_smoke_share_range :
    SensorType.window ≠ SensorType.smoke ∧
    cadenceRange SensorType.window = cadenceRange SensorType.smoke :=
  ⟨by decide, rfl⟩

/-- C8 (amended): the per-type suspension ranges are Temperature `[10,15]`,
Motion `[30,60]`, Window `[100,200]`, Door `[100,200]`, Smoke `[100,200]`;
Temperature's and Motion's ranges differ from each other's and from the
rest, but Window, Door and Smoke all share `[100,200]`, so the ranges are
not pairwise distinct across sensor types. -/
theorem c8_cadence_ranges :
    cadenceRange SensorType.temperature = (10, 15) ∧
    cadenceRange SensorType.motion = (30, 60) ∧
    cadenceRange SensorType.window = (100, 200) ∧
    cadenceRange SensorType.door = (100, 200) ∧
    cadenceRange SensorType.smoke = (100, 200) ∧
    cadenceRange SensorType.temperature ≠ cadenceRange SensorType.motion ∧
    cadenceRange SensorType.temperature ≠ cadenceRange SensorType.window ∧
    cadenceRange SensorType.temperature ≠ cadenceRange SensorType.door ∧
    cadenceRange SensorType.temperature ≠ cadenceRange SensorType.smoke ∧
    cadenceRange SensorType.motion ≠ cadenceRange SensorType.window ∧
    cadenceRange SensorType.motion ≠ cadenceRange SensorType.door ∧
    cadenceRange SensorType.motion ≠ cadenceRange SensorType.smoke ∧
    cadenceRange SensorType.window = cadenceRange SensorType.door ∧
    cadenceRange SensorType.door = cadenceRange SensorType.smoke := by
  refine ⟨rfl, rfl, rfl, rfl, rfl, ?_, ?_, ?_, ?_, ?_, ?_, ?_, rfl, rfl⟩
  all_goals decide

/-- C9: for every actuator type and every successfully handled command, the
response record's keys are exactly the transform's output keys plus
`battery` and `linkquality` (inbound fields the transform does not use never
appear), and `battery`/`linkquality` hold the freshly drawn
`get_next_random 89 92` / `get_next_random 50 255` values. -/
theorem c9_response_exact_keys (a : ActuatorType) (selfTopic : String)
    (msg out : Obj) (corrData : Token) (u1 u2 : ℚ) (n : Nat)
    (pc : PublishCall) (hsim : transformOf a msg = Except.ok out)
    (hok : MQTTActuator.on_message (transformOf a) selfTopic (some msg)
      corrData u1 u2 n = Except.ok pc) :
    keys pc.payload = transformKeys a ++ ["battery", "linkquality"] ∧
    getKey? pc.payload "battery" =
      some (J.num (get_next_random 89 92 u1)) ∧
    getKey? pc.payload "linkquality" =
      some (J.num (get_next_random 50 255 u2)) := by
  rw [on_message_ok _ _ _ _ _ _ _ _ hsim] at hok
  injection hok with hok
  subst hok
  have hk : keys out = transformKeys a := transform_ok_keys a msg out hsim
  have hb : "battery" ∉ keys out := by
    rw [hk]; cases a <;> decide
  have hl : "linkquality" ∉
      keys (setKey out "battery" (J.num (get_next_random 89 92 u1))) := by
    rw [keys_setKey_notMem _ _ _ hb, hk]
    cases a <;> decide
  refine ⟨?_, ?_, ?_⟩
  · show keys (setKey (setKey out "battery" _) "linkquality" _) = _
    rw [keys_setKey_notMem _ _ _ hl, keys_setKey_notMem _ _ _ hb, hk,
      List.append_assoc]
    rfl
  · show getKey? (setKey (setKey out "battery" _) "linkquality" _)
      "battery" = _
    rw [getKey?_setKey_ne _ _ _ _ (by decide), getKey?_setKey_self]
  · show getKey? (setKey (setKey out "battery" _) "linkquality" _)
      "linkquality" = _
    rw [getKey?_setKey_self]

/-- Witness for C9: a door command carrying an extra `junk` field yields a
response with exactly the keys `open`, `battery`, `linkquality`. -/
theorem c9_response_exact_keys_witness :
    keys (MQTTClient.publish "mind2/garage-actuator-door"
      (setKey (setKey [("open", J.bool true)] "battery"
          (J.num (get_next_random 89 92 0))) "linkquality"
        (J.num (get_next_random 50 255 0))) (some [1]) 0).payload =
      ["open", "battery", "linkquality"] ∧
    getKey? (MQTTClient.publish "mind2/garage-actuator-door"
      (setKey (setKey [("open", J.bool true)] "battery"
          (J.num (get_next_random 89 92 0))) "linkquality"
        (J.num (get_next_random 50 255 0))) (some [1]) 0).payload
      "battery" = some (J.num (get_next_random 89 92 0)) ∧
    getKey? (MQTTClient.publish "mind2/garage-actuator-door"
      (setKey (setKey [("open", J.bool true)] "battery"
          (J.num (get_next_random 89 92 0))) "linkquality"
        (J.num (get_next_random 50 255 0))) (some [1]) 0).payload
      "linkquality" = some (J.num (get_next_random 50 255 0)) :=
  c9_response_exact_keys ActuatorType.door "mind2/garage-actuator-door"
    [("open", J.bool true), ("junk", J.num 7)] [("open", J.bool true)]
    [1] 0 0 0 _ (by rfl) (by rfl)

/-- C10: the Thermostat/Shutter transforms echo the command's `active` value
verbatim into the response and decide by Python truthiness of that value
whether to echo `state`/`percentage` or leave it `0`: truthy non-booleans
(nonzero numbers, non-empty strings) behave as active, falsy values (`0`,
`""`, `null`, `false`) as inactive. -/
theorem c10_truthiness_decides_echo (msg : Obj) (v s p : J)
    (ha : getKey? msg "active" = some v) :
    (truthy v = true → getKey? msg "state" = some s →
      Thermostat.simulation msg = Except.ok [("active", v), ("state", s)]) ∧
    (truthy v = false →
      Thermostat.simulation msg =
        Except.ok [("active", v), ("state", J.num 0)]) ∧
    (truthy v = true → getKey? msg "percentage" = some p →
      Shutter.simulation msg =
        Except.ok [("active", v), ("percentage", p)]) ∧
    (truthy v = false →
      Shutter.simulation msg =
        Except.ok [("active", v), ("percentage", J.num 0)]) ∧
    truthy (J.num 1) = true ∧ truthy (J.str "on") = true ∧
    truthy (J.num 0) = false ∧ truthy (J.str "") = false ∧
    truthy J.null = false ∧ truthy (J.bool true) = true ∧
    truthy (J.bool false) = false :=
  ⟨fun ht hs => thermoSim_truthy msg v s ha ht hs,
   fun ht => thermoSim_falsy msg v ha ht,
   fun ht hp => shutterSim_truthy msg v p ha ht hp,
   fun ht => shutterSim_falsy msg v ha ht,
   by decide, by decide, by decide, by decide, rfl, rfl, rfl⟩

/-- Witness for C10: `active = 1` (truthy non-boolean) echoes the state;
`active = 0` (falsy non-boolean) zeroes the percentage. -/
theorem c10_truthiness_decides_echo_witness :
    Thermostat.simulation [("active", J.num 1), ("state", J.num 21)] =
      Except.ok [("active", J.num 1), ("state", J.num 21)] ∧
    Shutter.simulation [("active", J.num 0), ("percentage", J.num 75)] =
      Except.ok [("active", J.num 0), ("percentage", J.num 0)] :=
  ⟨(c10_truthiness_decides_echo [("active", J.num 1), ("state", J.num 21)]
      (J.num 1) (J.num 21) J.null rfl).1 (by decide) rfl,
   (c10_truthiness_decides_echo
      [("active", J.num 0), ("percentage", J.num 75)]
      (J.num 0) J.null (J.num 75) rfl).2.2.2.1 (by decide)⟩
